import Mathlib

/-!
# Verification of the URL-shortener core

A shallow embedding of the URL-shortener service (validators, shortcode
allocator, link-record model and the three route handlers) together with
theorems settling the specification's claims against it.

Conventions of the embedding:
* JS numbers that the code only ever treats as exact quantities are `ℚ`
  (inputs that went through `Number(...)`) or `Int`/`Nat` (timestamps in
  milliseconds, counters, lengths).
* A JS value that may be `undefined`/`null` is an `Option`; a request field
  that may fail `Number(...)` parsing is `Option (Option ℚ)` where `none` is
  absent, `some none` is a value whose `Number(...)` is `NaN`, and
  `some (some q)` is a value whose `Number(...)` is the number `q`.
* External collaborators (the `validator` library's `isURL`, the WHATWG `URL`
  parser, the Mongo store and its save verdicts, the random draws of
  `Math.random`) are parameters of the embedded functions.
-/

namespace UrlShortener

/-! ## Configuration (src/config/index.js) -/

def base62Chars : String := "0123456789abcdefghijklmnopqrstuvwxyzABCDEFGHIJKLMNOPQRSTUVWXYZ"

def defaultLength : Nat := 6

def minCustomLength : Nat := 4

def maxCustomLength : Nat := 20

def maxRetries : Nat := 5

def defaultValidityMinutes : Int := 30

/-! ## JS string primitives

The JS string operations the code uses (`trim`, `startsWith`,
`toLowerCase`), written over the character list so they evaluate by kernel
reduction.  `jsTrim` strips the ASCII whitespace of the JS `WhiteSpace` and
`LineTerminator` classes. -/

def isJsWhitespace (c : Char) : Bool :=
  c == ' ' || c == '\t' || c == '\n' || c == '\r' || c == '\x0b' || c == '\x0c'

/-- JS `s.trim()`. -/
def jsTrim (s : String) : String :=
  String.mk (((s.data.dropWhile isJsWhitespace).reverse.dropWhile isJsWhitespace).reverse)

/-- JS `s.startsWith(pre)`. -/
def jsStartsWith (s pre : String) : Bool :=
  pre.data.isPrefixOf s.data

/-- JS `s.toLowerCase()` on the ASCII hostnames the code inspects. -/
def jsToLower (s : String) : String :=
  String.mk (s.data.map Char.toLower)

/-! ## Validation service (src/utils/validation.js) -/

/-- JS `Math.round`: round half toward positive infinity. -/
def jsRound (q : ℚ) : Int := ⌊q + 1/2⌋

/-- The `{isValid: true, ...}` / `{isValid: false, error}` objects the
validation service returns. -/
inductive VResult (α : Type) where
  | ok (val : α)
  | invalid (error : String)
deriving DecidableEq, Repr

/-- `ValidationService.validateValidity(validity, defaultValue = 30)`. -/
def validateValidity (validity : Option (Option ℚ)) (defaultValue : Int) :
    VResult Int :=
  match validity with
  | none => .ok defaultValue
  | some none => .invalid "Validity must be a number"
  | some (some validityNum) =>
    if validityNum ≤ 0 then
      .invalid "Validity must be greater than 0 minutes"
    else if validityNum > 525600 then
      .invalid "Validity cannot exceed 1 year (525600 minutes)"
    else
      .ok (jsRound validityNum)

/-- The `{protocol, hostname}` fields of a WHATWG `new URL(...)` object that
`validateUrl` reads. -/
structure ParsedUrl where
  protocol : String
  hostname : String
deriving DecidableEq, Repr

/-- The regex `/^172\.(1[6-9]|2[0-9]|3[0-1])\./.test(hostname)`. -/
def matches172Private (s : String) : Bool :=
  match s.data with
  | '1' :: '7' :: '2' :: '.' :: c1 :: c2 :: '.' :: _ =>
    (c1 == '1' && decide ('6' ≤ c2 ∧ c2 ≤ '9')) ||
    (c1 == '2' && decide ('0' ≤ c2 ∧ c2 ≤ '9')) ||
    (c1 == '3' && decide ('0' ≤ c2 ∧ c2 ≤ '1'))
  | _ => false

/-- The private/loopback hostname guard of `validateUrl` (hostname already
lower-cased by the caller). -/
def isPrivateHost (hostname : String) : Bool :=
  hostname == "localhost" ||
  hostname == "127.0.0.1" ||
  hostname == "0.0.0.0" ||
  jsStartsWith hostname "192.168." ||
  jsStartsWith hostname "10." ||
  matches172Private hostname

/-- The regex `/^https?:\/\//` as a prefix test. -/
def hasHttpProtocol (s : String) : Bool :=
  jsStartsWith s "http://" || jsStartsWith s "https://"

/-- `ValidationService.validateUrl(url)`.  `isURLLib` stands for the external
`validator.isURL(...)` call and `parseURL` for `new URL(...)` (returning
`none` when the constructor throws); `url = none` is a non-string input. -/
def validateUrl (isURLLib : String → Bool) (parseURL : String → Option ParsedUrl)
    (url : Option String) : VResult String :=
  match url with
  | none => .invalid "URL is required and must be a string"
  | some u =>
    if u == "" then .invalid "URL is required and must be a string"
    else
      let trimmedUrl := jsTrim u
      if trimmedUrl == "" then .invalid "URL cannot be empty"
      else if !hasHttpProtocol trimmedUrl then
        .invalid "URL must include http:// or https:// protocol"
      else if !isURLLib trimmedUrl then
        .invalid "Invalid URL format"
      else
        match parseURL trimmedUrl with
        | none => .invalid "Malformed URL"
        | some urlObj =>
          let hostname := jsToLower urlObj.hostname
          if isPrivateHost hostname then
            .invalid "URLs pointing to private/local addresses are not allowed"
          else if !(urlObj.protocol == "http:" || urlObj.protocol == "https:") then
            .invalid "Only HTTP and HTTPS protocols are allowed"
          else
            .ok trimmedUrl

/-- Helper for `validatePagination`: the limit block, run after the page block
has produced `p`. -/
def validateLimitPart (p : Nat) (limit : Option (Option ℚ)) :
    VResult (Nat × Nat) :=
  match limit with
  | none => .ok (p, 50)
  | some none => .invalid "Limit must be a positive integer"
  | some (some limitNum) =>
    if limitNum < 1 then .invalid "Limit must be a positive integer"
    else if limitNum > 1000 then .invalid "Limit cannot exceed 1000"
    else .ok (p, (⌊limitNum⌋).toNat)

/-- `ValidationService.validatePagination(page, limit)`; `Math.floor` of a
number that passed the `≥ 1` guard is its `Int.floor`, a natural number. -/
def validatePagination (page limit : Option (Option ℚ)) : VResult (Nat × Nat) :=
  match page with
  | none => validateLimitPart 1 limit
  | some none => .invalid "Page must be a positive integer"
  | some (some pageNum) =>
    if pageNum < 1 then .invalid "Page must be a positive integer"
    else validateLimitPart (⌊pageNum⌋).toNat limit

/-! ## Shortcode service (src/services/shortcodeService.js) -/

/-- The outcome of `ShortcodeService.processShortcode`: either a shortcode or
an `{success: false, error, statusCode}` failure object. -/
inductive ProcessResult where
  | success (shortcode : String)
  | failure (statusCode : Nat) (error : String)
deriving DecidableEq, Repr

/-- The `while (attempts < maxAttemptsPerLength * 3)` loop of
`generateUniqueShortcode`, with the remaining iteration budget as fuel
(`fuel = maxRetries * 3 - attempts`), the availability answers of the store as
`taken`, and the random candidate of each iteration as `draws attempts
currentLength`.  After a failed attempt the counter advances and, when
`attempts % maxRetries` reaches `0`, the length escalates by one. -/
def generateLoop (taken : String → Bool) (draws : Nat → Nat → String) :
    Nat → Nat → Nat → Option String
  | 0, _, _ => none
  | fuel + 1, currentLength, attempts =>
    let shortcode := draws attempts currentLength
    if taken shortcode then
      let attempts1 := attempts + 1
      let newLength :=
        if attempts1 % maxRetries == 0 then currentLength + 1 else currentLength
      generateLoop taken draws fuel newLength attempts1
    else
      some shortcode

/-- `ShortcodeService.generateUniqueShortcode(length = this.defaultLength)`;
`none` is the `throw` after all attempts fail. -/
def generateUniqueShortcode (taken : String → Bool) (draws : Nat → Nat → String)
    (length : Nat) : Option String :=
  generateLoop taken draws (maxRetries * 3) length 0

/-- The regex `/^[a-zA-Z0-9]+$/.test(...)`. -/
def isAlphanumericString (s : String) : Bool :=
  !(s == "") && s.data.all (fun c => c.isAlpha || c.isDigit)

/-- `ShortcodeService.validateCustomShortcode(shortcode)`; the route passes the
request's string through, and `!shortcode` is the empty-string test. -/
def validateCustomShortcode (shortcode : String) : VResult String :=
  if shortcode == "" then .invalid "Shortcode must be a non-empty string"
  else
    let trimmedShortcode := jsTrim shortcode
    if trimmedShortcode.length < minCustomLength then
      .invalid "Shortcode must be at least 4 characters long"
    else if trimmedShortcode.length > maxCustomLength then
      .invalid "Shortcode must be at most 20 characters long"
    else if !isAlphanumericString trimmedShortcode then
      .invalid "Shortcode must contain only alphanumeric characters (a-z, A-Z, 0-9)"
    else
      .ok trimmedShortcode

/-- The generation arm of `processShortcode`: a successful draw is returned,
and the `throw` of an exhausted generator is caught by the surrounding
`try`/`catch` and turned into the 500 failure object. -/
def generatePath (taken : String → Bool) (draws : Nat → Nat → String) :
    ProcessResult :=
  match generateUniqueShortcode taken draws defaultLength with
  | some shortcode => .success shortcode
  | none => .failure 500 "Internal server error during shortcode processing"

/-- `ShortcodeService.processShortcode(customShortcode = null)`.  The
`if (customShortcode)` truthiness test sends `null`/`undefined` and the empty
string to the generation arm. -/
def processShortcode (taken : String → Bool) (draws : Nat → Nat → String) :
    Option String → ProcessResult
  | none => generatePath taken draws
  | some cs =>
    if cs == "" then generatePath taken draws
    else
      match validateCustomShortcode cs with
      | .invalid e => .failure 400 e
      | .ok sc =>
        if taken sc then .failure 409 "Custom shortcode is already taken"
        else .success sc

/-! ## Link record model (src/models/Url.js) -/

/-- The embedded click subdocument (`clickSchema`); timestamps are epoch
milliseconds. -/
structure ClickEvent where
  ts : Int
  ip : String
  referrer : Option String
  userAgent : Option String
  country : Option String
deriving DecidableEq, Repr

/-- The `urlSchema` document. -/
structure UrlDoc where
  shortcode : String
  originalUrl : String
  createdAt : Int
  expiryAt : Int
  clickCount : Nat
  clicks : List ClickEvent
deriving DecidableEq, Repr

/-- `urlSchema.methods.isExpired`: `new Date() > this.expiryAt`. -/
def isExpired (now : Int) (doc : UrlDoc) : Bool :=
  now > doc.expiryAt

/-- `urlSchema.methods.addClick`: push the click, then set `clickCount` to the
new length of `clicks` (the `save()` outcome is handled by callers). -/
def addClick (doc : UrlDoc) (clickData : ClickEvent) : UrlDoc :=
  let newClicks := doc.clicks ++ [clickData]
  { doc with clicks := newClicks, clickCount := newClicks.length }

/-- The `new Url({shortcode, originalUrl, expiryAt, clickCount: 0, clicks: []})`
constructed by the create route; `createdAt` defaults to now. -/
def mkUrlDoc (shortcode originalUrl : String) (createdAt expiryAt : Int) :
    UrlDoc :=
  { shortcode := shortcode, originalUrl := originalUrl, createdAt := createdAt,
    expiryAt := expiryAt, clickCount := 0, clicks := [] }

/-! ## Route handlers (src/routes/urlRoutes.js) -/

/-- The response of `GET /:shortcode`. -/
inductive RedirectResponse where
  | notFound
  | expired
  | serverError
  | redirected (location : String)
deriving DecidableEq, Repr

/-- `router.get('/:shortcode')`.  `store` is `Url.findOne`, `clickSaveOk` the
verdict of the awaited `urlDoc.addClick(...)` save (a rejection lands in the
catch block).  The second component is the document state the click-save
persisted, when one was. -/
def redirectHandler (store : String → Option UrlDoc) (now : Int)
    (clickData : ClickEvent) (clickSaveOk : Bool) (shortcode : String) :
    RedirectResponse × Option UrlDoc :=
  match store shortcode with
  | none => (.notFound, none)
  | some urlDoc =>
    if isExpired now urlDoc then (.expired, none)
    else if clickSaveOk then
      (.redirected urlDoc.originalUrl, some (addClick urlDoc clickData))
    else
      (.serverError, none)

/-- The response of `GET /shorturls/:shortcode`. -/
inductive StatsResponse where
  | badRequest (message : String)
  | notFound
  | stats (shortcode originalUrl : String) (createdAt expiry : Int)
      (totalClicks : Nat) (clicks : List ClickEvent)
deriving DecidableEq, Repr

/-- `router.get('/shorturls/:shortcode')`; `clicks.slice(startIndex, endIndex)`
with `endIndex = startIndex + limit` is drop-then-take. -/
def statsHandler (store : String → Option UrlDoc) (shortcode : String)
    (page limit : Option (Option ℚ)) : StatsResponse :=
  match validatePagination page limit with
  | .invalid e => .badRequest e
  | .ok (p, l) =>
    match store shortcode with
    | none => .notFound
    | some urlDoc =>
      let startIndex := (p - 1) * l
      let paginatedClicks := (urlDoc.clicks.drop startIndex).take l
      .stats urlDoc.shortcode urlDoc.originalUrl urlDoc.createdAt urlDoc.expiryAt
        urlDoc.clickCount paginatedClicks

/-- The verdict of the store on `urlDoc.save()` in the create route:
success, the duplicate-key rejection (`error.code === 11000`), or any other
rejection. -/
inductive SaveResult where
  | ok
  | dupKey
  | otherError
deriving DecidableEq, Repr

/-- The body of `POST /shorturls`. -/
structure CreateRequest where
  url : Option String
  validity : Option (Option ℚ)
  shortcode : Option String

/-- The response of `POST /shorturls`. -/
inductive CreateResponse where
  | error (status : Nat) (message : String)
  | created (shortLink : String) (expiryMs : Int)
deriving DecidableEq, Repr

/-- `router.post('/shorturls')`.  `save` is the store's verdict on
`urlDoc.save()`; a duplicate-key rejection is mapped by the catch block to the
409 response, any other rejection to 500. -/
def createHandler (isURLLib : String → Bool) (parseURL : String → Option ParsedUrl)
    (taken : String → Bool) (draws : Nat → Nat → String)
    (save : UrlDoc → SaveResult) (now : Int) (hostname : String)
    (req : CreateRequest) : CreateResponse :=
  match validateUrl isURLLib parseURL req.url with
  | .invalid e => .error 400 e
  | .ok validUrl =>
    match validateValidity req.validity defaultValidityMinutes with
    | .invalid e => .error 400 e
    | .ok validity =>
      match processShortcode taken draws req.shortcode with
      | .failure status e => .error status e
      | .success shortcode =>
        let expiryAt := now + validity * 60 * 1000
        let urlDoc := mkUrlDoc shortcode validUrl now expiryAt
        match save urlDoc with
        | .dupKey => .error 409 "Shortcode already exists"
        | .otherError => .error 500 "Internal server error"
        | .ok => .created (hostname ++ "/" ++ shortcode) expiryAt

/-! ## Theorems -/

/-- Unfolding lemma: the redirect handler on an unknown code. -/
theorem redirectHandler_none {store : String → Option UrlDoc} {now : Int}
    {clickData : ClickEvent} {clickSaveOk : Bool} {shortcode : String}
    (h : store shortcode = none) :
    redirectHandler store now clickData clickSaveOk shortcode = (.notFound, none) := by
  unfold redirectHandler
  rw [h]

/-- Unfolding lemma: the redirect handler on a found record. -/
theorem redirectHandler_some {store : String → Option UrlDoc} {now : Int}
    {clickData : ClickEvent} {clickSaveOk : Bool} {shortcode : String}
    {doc : UrlDoc} (h : store shortcode = some doc) :
    redirectHandler store now clickData clickSaveOk shortcode =
      if isExpired now doc then (.expired, none)
      else if clickSaveOk then
        (.redirected doc.originalUrl, some (addClick doc clickData))
      else (.serverError, none) := by
  unfold redirectHandler
  rw [h]

/-- C3 (counterexample): `validateValidity` accepts the input `0.3` — it is a
number, strictly positive and below the one-year cap — and returns
`Math.round(0.3) = 0`, so a successful result is not always strictly
positive as the claim states. -/
theorem validateValidity_zero_result :
    validateValidity (some (some (3/10))) 30 = .ok 0 ∧ ¬ (0 : Int) > 0 := by
  constructor
  · have h1 : ¬ ((3/10 : ℚ) ≤ 0) := by norm_num
    have h2 : ¬ ((3/10 : ℚ) > 525600) := by norm_num
    simp only [validateValidity, if_neg h1, if_neg h2, jsRound]
    norm_num
  · exact lt_irrefl 0

/-- C3 (amended): `validateValidity` returns the default when the input is
absent, rejects inputs that do not parse as a number, rejects inputs not
strictly greater than 0 and inputs greater than 525600, and otherwise returns
the input rounded to the nearest integer; every successful result of the
rounding arm is an integer satisfying `0 ≤ result ≤ 525600` (an input
strictly between 0 and 1/2 rounds to 0, so strict positivity does not hold). -/
theorem validateValidity_spec (d : Int) :
    validateValidity none d = .ok d
    ∧ validateValidity (some none) d = .invalid "Validity must be a number"
    ∧ (∀ q : ℚ, q ≤ 0 →
        validateValidity (some (some q)) d =
          .invalid "Validity must be greater than 0 minutes")
    ∧ (∀ q : ℚ, 525600 < q →
        validateValidity (some (some q)) d =
          .invalid "Validity cannot exceed 1 year (525600 minutes)")
    ∧ (∀ q : ℚ, 0 < q → q ≤ 525600 →
        validateValidity (some (some q)) d = .ok (jsRound q)
          ∧ 0 ≤ jsRound q ∧ jsRound q ≤ 525600) := by
  refine ⟨rfl, rfl, ?_, ?_, ?_⟩
  · intro q hq
    simp only [validateValidity, if_pos hq]
  · intro q hq
    have h1 : ¬ q ≤ 0 := by linarith
    simp only [validateValidity, if_neg h1, gt_iff_lt, if_pos hq]
  · intro q h0 h5
    have h1 : ¬ q ≤ 0 := not_le.mpr h0
    have h2 : ¬ q > 525600 := not_lt.mpr h5
    refine ⟨by simp only [validateValidity, if_neg h1, if_neg h2], ?_, ?_⟩
    · exact Int.floor_nonneg.mpr (by linarith)
    · have hlt : q + 1/2 < ((525601 : Int) : ℚ) := by push_cast; linarith
      have := Int.floor_lt.mpr hlt
      unfold jsRound
      omega

/-- C2: on a redirect request, an existing record with `now > expiresAt`
yields the expired (410) kind — and an existing record never yields the
not-found kind; the expired kind arises exactly when the record read
satisfies the strict comparison `now > expiresAt`, which is precisely the
`isExpired` method. -/
theorem redirect_expired_iff (store : String → Option UrlDoc) (now : Int)
    (clickData : ClickEvent) (clickSaveOk : Bool) (code : String) :
    ((redirectHandler store now clickData clickSaveOk code).1 = .expired ↔
      ∃ doc, store code = some doc ∧ now > doc.expiryAt)
    ∧ (∀ doc, store code = some doc →
        (redirectHandler store now clickData clickSaveOk code).1 ≠ .notFound)
    ∧ (∀ doc : UrlDoc, isExpired now doc = true ↔ now > doc.expiryAt) := by
  refine ⟨?_, ?_, fun doc => by simp [isExpired]⟩
  · constructor
    · intro h
      cases hs : store code with
      | none => rw [redirectHandler_none hs] at h; simp at h
      | some doc =>
        rw [redirectHandler_some hs] at h
        by_cases he : isExpired now doc
        · refine ⟨doc, rfl, ?_⟩
          simpa [isExpired] using he
        · by_cases hc : clickSaveOk <;> simp [he, hc] at h
    · rintro ⟨doc, hdoc, hgt⟩
      rw [redirectHandler_some hdoc]
      have he : isExpired now doc = true := by simpa [isExpired] using hgt
      simp [he]
  · intro doc hdoc
    rw [redirectHandler_some hdoc]
    by_cases he : isExpired now doc <;> by_cases hc : clickSaveOk <;>
      simp [he, hc]

/-- C6: a record is created with `clickCount = 0` and `clicks = []`, so the
invariant `clickCount = clicks.length` holds at creation; `addClick` appends
the click (removing and reordering nothing) and re-establishes the invariant,
and under the invariant the count strictly increases, so it is never
decremented. -/
theorem clickCount_invariant :
    (∀ code url cAt eAt,
        (mkUrlDoc code url cAt eAt).clickCount = (mkUrlDoc code url cAt eAt).clicks.length
        ∧ (mkUrlDoc code url cAt eAt).clickCount = 0)
    ∧ (∀ (doc : UrlDoc) (c : ClickEvent),
        (addClick doc c).clicks = doc.clicks ++ [c]
        ∧ (addClick doc c).clickCount = (addClick doc c).clicks.length
        ∧ (doc.clickCount = doc.clicks.length →
            (addClick doc c).clickCount = doc.clickCount + 1)) := by
  refine ⟨fun _ _ _ _ => ⟨rfl, rfl⟩, fun doc c => ⟨rfl, rfl, fun h => ?_⟩⟩
  simp [addClick, h]

/-- C7: the redirect handler issues the 302 only when the record was found,
unexpired, and the click-append save succeeded — and then the persisted
document is exactly the read document with the click appended; when the
click-append fails on a live record, the handler returns the server error and
no redirect. -/
theorem redirect_click_ordering (store : String → Option UrlDoc) (now : Int)
    (clickData : ClickEvent) (clickSaveOk : Bool) (code : String) :
    (∀ loc persisted,
        redirectHandler store now clickData clickSaveOk code = (.redirected loc, persisted) →
        clickSaveOk = true
          ∧ ∃ doc, store code = some doc ∧ isExpired now doc = false
              ∧ persisted = some (addClick doc clickData) ∧ loc = doc.originalUrl)
    ∧ (∀ doc, store code = some doc → isExpired now doc = false → clickSaveOk = false →
        redirectHandler store now clickData clickSaveOk code = (.serverError, none)) := by
  constructor
  · intro loc persisted h
    cases hs : store code with
    | none => rw [redirectHandler_none hs] at h; simp at h
    | some doc =>
      rw [redirectHandler_some hs] at h
      by_cases he : isExpired now doc
      · simp [he] at h
      · by_cases hc : clickSaveOk
        · rw [if_neg he, if_pos hc] at h
          injection h with h1 h2
          injection h1 with h3
          exact ⟨hc, doc, rfl, eq_false_of_ne_true he, h2.symm, h3.symm⟩
        · simp [he, hc] at h
  · intro doc hdoc he hc
    rw [redirectHandler_some hdoc]
    simp [he, hc]

/-- Arithmetic of the escalation step: bumping the length when the attempt
counter reaches a multiple of `maxRetries` keeps the length at
`initial + attempts / maxRetries`. -/
theorem escalation_length (l k : Nat) :
    (if (k + 1) % maxRetries == 0 then l + k / maxRetries + 1
     else l + k / maxRetries) = l + (k + 1) / maxRetries := by
  simp only [maxRetries, beq_iff_eq]
  split <;> omega

/-- The generation loop, entered at attempt `k` with the length it holds at
that point, returns `none` exactly when every remaining draw is taken. -/
theorem generateLoop_none_iff (taken : String → Bool) (draws : Nat → Nat → String)
    (fuel : Nat) : ∀ (k l : Nat), fuel + k = maxRetries * 3 →
    (generateLoop taken draws fuel (l + k / maxRetries) k = none ↔
      ∀ j, k ≤ j → j < maxRetries * 3 → taken (draws j (l + j / maxRetries)) = true) := by
  induction fuel with
  | zero =>
    intro k l hfk
    constructor
    · intro _ j hkj hj
      exact absurd hj (by omega)
    · intro _
      rfl
  | succ fuel ih =>
    intro k l hfk
    simp only [generateLoop]
    by_cases ht : taken (draws k (l + k / maxRetries)) = true
    · rw [if_pos ht, escalation_length, ih (k + 1) l (by omega)]
      constructor
      · intro H j hkj hj
        rcases Nat.eq_or_lt_of_le hkj with rfl | hlt
        · exact ht
        · exact H j hlt hj
      · intro H j hkj hj
        exact H j (by omega) hj
    · rw [if_neg ht]
      constructor
      · intro h
        exact absurd h (by simp)
      · intro H
        exact absurd (H k le_rfl (by omega)) ht

/-- The generation loop, entered at attempt `k`, can only return a draw made
at some remaining attempt, at the length of that attempt's tier, and only an
available one. -/
theorem generateLoop_some (taken : String → Bool) (draws : Nat → Nat → String)
    (fuel : Nat) : ∀ (k l : Nat) (s : String), fuel + k = maxRetries * 3 →
    generateLoop taken draws fuel (l + k / maxRetries) k = some s →
    ∃ j, k ≤ j ∧ j < maxRetries * 3 ∧ s = draws j (l + j / maxRetries)
      ∧ taken s = false := by
  induction fuel with
  | zero =>
    intro k l s hfk h
    exact absurd h (by simp [generateLoop])
  | succ fuel ih =>
    intro k l s hfk h
    simp only [generateLoop] at h
    by_cases ht : taken (draws k (l + k / maxRetries)) = true
    · rw [if_pos ht, escalation_length] at h
      obtain ⟨j, hkj, hj, hs, hts⟩ := ih (k + 1) l s (by omega) h
      exact ⟨j, by omega, hj, hs, hts⟩
    · rw [if_neg ht] at h
      injection h with h1
      refine ⟨k, le_rfl, by omega, h1.symm, ?_⟩
      rw [← h1]
      exact eq_false_of_ne_true ht

/-- C4: the shortcode generator makes at most `maxRetries * 3 = 15` candidate
draws (5 per length tier); the length used at draw `j` is the initial length
plus `j / 5`, so only three tiers (initial, +1, +2) are ever used; it fails
exactly when all 15 draws are taken, and that failure makes `processShortcode`
report the fatal 500 allocation failure.  Termination is structural: the loop
is total by construction on its 15-step budget. -/
theorem generator_termination_bounds (taken : String → Bool)
    (draws : Nat → Nat → String) (l : Nat) :
    maxRetries * 3 = 15
    ∧ (generateUniqueShortcode taken draws l = none ↔
        ∀ j, j < 15 → taken (draws j (l + j / maxRetries)) = true)
    ∧ (∀ s, generateUniqueShortcode taken draws l = some s →
        ∃ j, j < 15 ∧ s = draws j (l + j / maxRetries) ∧ taken s = false)
    ∧ (∀ j, j < 15 → l + j / maxRetries ≤ l + 2)
    ∧ (generateUniqueShortcode taken draws defaultLength = none →
        generatePath taken draws =
          .failure 500 "Internal server error during shortcode processing") := by
  refine ⟨rfl, ?_, ?_, ?_, ?_⟩
  · have h := generateLoop_none_iff taken draws (maxRetries * 3) 0 l (by omega)
    simpa [generateUniqueShortcode] using h
  · intro s hs
    have h := generateLoop_some taken draws (maxRetries * 3) 0 l s (by omega)
      (by simpa [generateUniqueShortcode] using hs)
    obtain ⟨j, _, hj, hdraw, htaken⟩ := h
    exact ⟨j, by simpa [maxRetries] using hj, hdraw, htaken⟩
  · intro j hj
    simp only [maxRetries]
    omega
  · intro h
    unfold generatePath
    rw [h]

/-- C10: an empty-string `shortcode` field is falsy, so `processShortcode`
takes the generation arm exactly as when no shortcode is supplied; the
generation arm yields a success or the 500 failure, never the 400
invalid-custom-code error. -/
theorem empty_shortcode_uses_generator (taken : String → Bool)
    (draws : Nat → Nat → String) :
    processShortcode taken draws (some "") = processShortcode taken draws none
    ∧ processShortcode taken draws (some "") = generatePath taken draws
    ∧ (∀ e, processShortcode taken draws (some "") ≠ .failure 400 e) := by
  refine ⟨rfl, rfl, fun e h => ?_⟩
  unfold processShortcode generatePath at h
  simp only [if_pos] at h
  cases hg : generateUniqueShortcode taken draws defaultLength <;> rw [hg] at h <;>
    simp at h

/-- C8: on the custom-code path, a syntactically invalid code is reported
with the 400 validation kind carrying the validator's message, while a
syntactically valid code that is already taken is reported with the distinct
409 conflict kind; a code is syntactically valid exactly when its trimmed
form is 4–20 alphanumeric characters. -/
theorem custom_code_conflict_distinct (taken : String → Bool)
    (draws : Nat → Nat → String) (s : String) :
    (∀ e, s ≠ "" → validateCustomShortcode s = .invalid e →
        processShortcode taken draws (some s) = .failure 400 e)
    ∧ (∀ c, s ≠ "" → validateCustomShortcode s = .ok c → taken c = true →
        processShortcode taken draws (some s) =
          .failure 409 "Custom shortcode is already taken")
    ∧ (∀ c, validateCustomShortcode s = .ok c →
        c = jsTrim s ∧ minCustomLength ≤ c.length ∧ c.length ≤ maxCustomLength
          ∧ isAlphanumericString c = true)
    ∧ (s ≠ "" →
        ¬(minCustomLength ≤ (jsTrim s).length ∧ (jsTrim s).length ≤ maxCustomLength
            ∧ isAlphanumericString (jsTrim s) = true) →
        ∃ e, validateCustomShortcode s = .invalid e) := by
  have hbeq : ∀ t : String, t ≠ "" → ¬((t == "") = true) := by
    intro t ht hc
    exact ht (by simpa using hc)
  refine ⟨?_, ?_, ?_, ?_⟩
  · intro e hs he
    simp only [processShortcode]
    rw [if_neg (hbeq s hs), he]
  · intro c hs hc ht
    simp only [processShortcode]
    rw [if_neg (hbeq s hs), hc]
    simp [ht]
  · intro c hc
    simp only [validateCustomShortcode] at hc
    by_cases h0 : (s == "") = true
    · rw [if_pos h0] at hc
      exact absurd hc (by simp)
    · rw [if_neg h0] at hc
      by_cases h1 : (jsTrim s).length < minCustomLength
      · rw [if_pos h1] at hc
        exact absurd hc (by simp)
      · rw [if_neg h1] at hc
        by_cases h2 : (jsTrim s).length > maxCustomLength
        · rw [if_pos h2] at hc
          exact absurd hc (by simp)
        · rw [if_neg h2] at hc
          by_cases h3 : (!isAlphanumericString (jsTrim s)) = true
          · rw [if_pos h3] at hc
            exact absurd hc (by simp)
          · rw [if_neg h3] at hc
            injection hc with hc1
            refine ⟨hc1.symm, ?_, ?_, ?_⟩
            · rw [← hc1]; omega
            · rw [← hc1]; omega
            · rw [← hc1]; simpa using h3
  · intro hs hbad
    simp only [validateCustomShortcode]
    rw [if_neg (hbeq s hs)]
    by_cases h1 : (jsTrim s).length < minCustomLength
    · rw [if_pos h1]
      exact ⟨_, rfl⟩
    · rw [if_neg h1]
      by_cases h2 : (jsTrim s).length > maxCustomLength
      · rw [if_pos h2]
        exact ⟨_, rfl⟩
      · rw [if_neg h2]
        by_cases h3 : isAlphanumericString (jsTrim s) = true
        · exact absurd ⟨by omega, by omega, h3⟩ hbad
        · rw [if_pos (by simpa using h3)]
          exact ⟨_, rfl⟩

/-- C9: the stats handler returns `clicks.slice((page-1)*limit,
(page-1)*limit + limit)` — at most `limit` elements starting at offset
`(page-1)*limit` — with page defaulting to 1, limit defaulting to 50, and
limits above 1000 rejected. -/
theorem stats_pagination_slice (store : String → Option UrlDoc) (code : String)
    (page limit : Option (Option ℚ)) :
    validatePagination none none = .ok (1, 50)
    ∧ (∀ q : ℚ, 1000 < q →
        validatePagination none (some (some q)) = .invalid "Limit cannot exceed 1000")
    ∧ (∀ p l doc, validatePagination page limit = .ok (p, l) →
        store code = some doc →
        statsHandler store code page limit =
          .stats doc.shortcode doc.originalUrl doc.createdAt doc.expiryAt
            doc.clickCount ((doc.clicks.drop ((p - 1) * l)).take l)
        ∧ ((doc.clicks.drop ((p - 1) * l)).take l).length ≤ l) := by
  refine ⟨rfl, ?_, ?_⟩
  · intro q hq
    have h1 : ¬ (q < 1) := by linarith
    simp only [validatePagination, validateLimitPart]
    rw [if_neg h1, if_pos hq]
  · intro p l doc hv hdoc
    constructor
    · simp only [statsHandler]
      rw [hv, hdoc]
    · exact List.length_take_le _ _

/-- `validateUrl` succeeds exactly when every guard of the source passes, and
then it returns the trimmed input. -/
theorem validateUrl_ok_iff (isURLLib : String → Bool)
    (parseURL : String → Option ParsedUrl) (s r : String) :
    validateUrl isURLLib parseURL (some s) = .ok r ↔
      s ≠ "" ∧ jsTrim s ≠ "" ∧ hasHttpProtocol (jsTrim s) = true
        ∧ isURLLib (jsTrim s) = true
        ∧ ∃ u, parseURL (jsTrim s) = some u
            ∧ isPrivateHost (jsToLower u.hostname) = false
            ∧ (u.protocol == "http:" || u.protocol == "https:") = true
            ∧ r = jsTrim s := by
  simp only [validateUrl]
  by_cases h0 : (s == "") = true
  · rw [if_pos h0]
    simp only [show s = "" from by simpa using h0]
    simp
  · rw [if_neg h0]
    have hs0 : s ≠ "" := fun h => h0 (by simp [h])
    by_cases h1 : (jsTrim s == "") = true
    · rw [if_pos h1]
      have : jsTrim s = "" := by simpa using h1
      simp [this]
    · rw [if_neg h1]
      have hs1 : jsTrim s ≠ "" := fun h => h1 (by simp [h])
      by_cases h2 : (!hasHttpProtocol (jsTrim s)) = true
      · rw [if_pos h2]
        have : hasHttpProtocol (jsTrim s) = false := by simpa using h2
        simp [this]
      · rw [if_neg h2]
        have hh : hasHttpProtocol (jsTrim s) = true := by simpa using h2
        by_cases h3 : (!isURLLib (jsTrim s)) = true
        · rw [if_pos h3]
          have : isURLLib (jsTrim s) = false := by simpa using h3
          simp [this]
        · rw [if_neg h3]
          have hlib : isURLLib (jsTrim s) = true := by simpa using h3
          cases hp : parseURL (jsTrim s) with
          | none => simp [hs0, hs1, hh, hlib]
          | some u =>
            dsimp only
            by_cases h4 : isPrivateHost (jsToLower u.hostname) = true
            · rw [if_pos h4]
              simp [hs0, hs1, hh, hlib, h4]
            · rw [if_neg h4]
              have hpriv : isPrivateHost (jsToLower u.hostname) = false := by
                simpa using h4
              by_cases h5 : (!(u.protocol == "http:" || u.protocol == "https:")) = true
              · rw [if_pos h5]
                have hfalse : (u.protocol == "http:" || u.protocol == "https:") = false := by
                  revert h5
                  cases u.protocol == "http:" || u.protocol == "https:" <;> simp
                constructor
                · intro hcon
                  exact absurd hcon (by simp)
                · rintro ⟨-, -, -, -, u', hu', -, hproto', -⟩
                  injection hu' with hu''
                  rw [← hu'', hfalse] at hproto'
                  exact absurd hproto' (by simp)
              · rw [if_neg h5]
                have hproto : (u.protocol == "http:" || u.protocol == "https:") = true := by
                  revert h5
                  cases u.protocol == "http:" || u.protocol == "https:" <;> simp
                simp only [VResult.ok.injEq]
                constructor
                · intro hr
                  exact ⟨hs0, hs1, hh, hlib, u, rfl, hpriv, hproto, hr.symm⟩
                · rintro ⟨-, -, -, -, u', hu', -, -, rfl⟩
                  rfl

/-- C5: `validateUrl` rejects non-string and empty input, any input whose
trimmed form lacks an explicit `http://`/`https://` prefix, any input the URL
library deems malformed or the URL parser fails on, and every URL whose
lower-cased hostname is loopback, unspecified or private
(`localhost`, `127.0.0.1`, `0.0.0.0`, `10.*`, `192.168.*`, `172.16.*`–`172.31.*`);
on success it returns exactly the trimmed input. -/
theorem validateUrl_guards (isURLLib : String → Bool)
    (parseURL : String → Option ParsedUrl) :
    validateUrl isURLLib parseURL none = .invalid "URL is required and must be a string"
    ∧ validateUrl isURLLib parseURL (some "") =
        .invalid "URL is required and must be a string"
    ∧ (∀ s r, validateUrl isURLLib parseURL (some s) = .ok r → r = jsTrim s)
    ∧ (∀ s, hasHttpProtocol (jsTrim s) = false →
        ∀ r, validateUrl isURLLib parseURL (some s) ≠ .ok r)
    ∧ (∀ s, isURLLib (jsTrim s) = false →
        ∀ r, validateUrl isURLLib parseURL (some s) ≠ .ok r)
    ∧ (∀ s, parseURL (jsTrim s) = none →
        ∀ r, validateUrl isURLLib parseURL (some s) ≠ .ok r)
    ∧ (∀ s u, parseURL (jsTrim s) = some u →
        isPrivateHost (jsToLower u.hostname) = true →
        ∀ r, validateUrl isURLLib parseURL (some s) ≠ .ok r)
    ∧ (isPrivateHost "localhost" = true ∧ isPrivateHost "127.0.0.1" = true
        ∧ isPrivateHost "0.0.0.0" = true ∧ isPrivateHost "10.0.0.1" = true
        ∧ isPrivateHost "192.168.1.1" = true ∧ isPrivateHost "172.16.0.1" = true
        ∧ isPrivateHost "172.31.255.255" = true ∧ isPrivateHost "172.15.0.1" = false
        ∧ isPrivateHost "172.32.0.1" = false ∧ isPrivateHost "example.com" = false)
    ∧ (∀ s u, s ≠ "" → jsTrim s ≠ "" → hasHttpProtocol (jsTrim s) = true →
        isURLLib (jsTrim s) = true → parseURL (jsTrim s) = some u →
        isPrivateHost (jsToLower u.hostname) = false →
        (u.protocol == "http:" || u.protocol == "https:") = true →
        validateUrl isURLLib parseURL (some s) = .ok (jsTrim s)) := by
  refine ⟨rfl, rfl, ?_, ?_, ?_, ?_, ?_, by decide, ?_⟩
  · intro s r h
    obtain ⟨-, -, -, -, -, -, -, -, hr⟩ := (validateUrl_ok_iff isURLLib parseURL s r).mp h
    exact hr
  · intro s hh r h
    obtain ⟨-, -, hh', -, -⟩ := (validateUrl_ok_iff isURLLib parseURL s r).mp h
    rw [hh] at hh'
    exact absurd hh' (by simp)
  · intro s hlib r h
    obtain ⟨-, -, -, hlib', -⟩ := (validateUrl_ok_iff isURLLib parseURL s r).mp h
    rw [hlib] at hlib'
    exact absurd hlib' (by simp)
  · intro s hp r h
    obtain ⟨-, -, -, -, u, hu, -⟩ := (validateUrl_ok_iff isURLLib parseURL s r).mp h
    rw [hp] at hu
    exact absurd hu (by simp)
  · intro s u hp hpriv r h
    obtain ⟨-, -, -, -, u', hu', hpriv', -⟩ :=
      (validateUrl_ok_iff isURLLib parseURL s r).mp h
    rw [hp] at hu'
    injection hu' with hu''
    rw [← hu''] at hpriv'
    rw [hpriv] at hpriv'
    exact absurd hpriv' (by simp)
  · intro s u hs0 hs1 hh hlib hp hpriv hproto
    exact (validateUrl_ok_iff isURLLib parseURL s (jsTrim s)).mpr
      ⟨hs0, hs1, hh, hlib, u, hp, hpriv, hproto, rfl⟩

/-- C1 (counterexample): a creation request with no custom shortcode — the
code is auto-generated — whose save is rejected with the duplicate-key error:
the handler surfaces the 409 conflict to the caller instead of transparently
retrying with a fresh code. -/
theorem create_dupkey_autogenerated_conflict :
    createHandler (fun _ => true) (fun _ => some ⟨"https:", "example.com"⟩)
      (fun _ => false) (fun _ _ => "x1y2z3") (fun _ => .dupKey) 0
      "http://localhost:3000" ⟨some "https://example.com/page", none, none⟩
      = .error 409 "Shortcode already exists" := by
  decide

/-- C1 (amended): whenever the store rejects the write with the duplicate-key
error, the create handler returns the 409 conflict — for user-supplied and
auto-generated codes alike (the hypothesis on `processShortcode` covers both
arms); the handler performs a single save per request, so the creation is
never re-attempted: the generator's retries all happen before the write, at
availability-check time. -/
theorem create_dupkey_conflict (isURLLib : String → Bool)
    (parseURL : String → Option ParsedUrl) (taken : String → Bool)
    (draws : Nat → Nat → String) (save : UrlDoc → SaveResult) (now : Int)
    (hostname : String) (req : CreateRequest) (u : String) (v : Int) (c : String)
    (hu : validateUrl isURLLib parseURL req.url = .ok u)
    (hv : validateValidity req.validity defaultValidityMinutes = .ok v)
    (hc : processShortcode taken draws req.shortcode = .success c)
    (hsave : save (mkUrlDoc c u now (now + v * 60 * 1000)) = .dupKey) :
    createHandler isURLLib parseURL taken draws save now hostname req =
      .error 409 "Shortcode already exists" := by
  simp only [createHandler]
  rw [hu]
  dsimp only
  rw [hv]
  dsimp only
  rw [hc]
  dsimp only
  rw [hsave]

/-- Witness for the amended C1, at a concrete user-supplied custom code whose
save collides. -/
theorem create_dupkey_conflict_witness :
    createHandler (fun _ => true) (fun _ => some ⟨"https:", "example.com"⟩)
      (fun _ => false) (fun _ _ => "zzzzzz") (fun _ => .dupKey) 0
      "http://localhost:3000" ⟨some "https://example.com", none, some "abcd"⟩
      = .error 409 "Shortcode already exists" :=
  create_dupkey_conflict (fun _ => true) (fun _ => some ⟨"https:", "example.com"⟩)
    (fun _ => false) (fun _ _ => "zzzzzz") (fun _ => .dupKey) 0
    "http://localhost:3000" ⟨some "https://example.com", none, some "abcd"⟩
    "https://example.com" 30 "abcd" (by decide) (by decide) (by decide) (by decide)

end UrlShortener
